import Mathlib

/-!
Shallow embedding of the ftp-paradise server core (src/thread_pool.rs,
src/server/ftp_server.rs, src/server/ftp_client.rs, src/options.rs,
src/commands.rs) and verification of the frozen specification claims.

Conventions of the embedding:
- a Rust panic (`unwrap` on `None`, a failed `assert!`) is an explicit
  `panicked` constructor of the result type;
- the operating system facilities the handlers call (socket binds,
  filesystem queries, the accept on the data listener) are oracles packed
  into a `World` record;
- a TCP listener is identified by the port it is bound to;
- byte writes to the control and data connections are collected into
  explicit lists of strings, in program order.
-/

set_option maxRecDepth 4000

namespace FtpParadise

/-- Transfer representation type: `DataType` of src/options/data_representation.
The file itself is not under src/; the variants are those the call sites in
src/server/ftp_client.rs use and the spec lists (ASCII, EBCDIC, Image, Local). -/
inductive DataType where
  | ASCII
  | EBCDIC
  | Image
  | Local
deriving DecidableEq

/-- Listen mode: `ListenMode` of src/options/listen_mode. The file itself is
not under src/; the variants are those the call sites use (Active, Passive). -/
inductive ListenMode where
  | Active
  | Passive
deriving DecidableEq

/-- `SessionInformations` from src/options/session.rs. -/
structure SessionInformations where
  username : String
  password : Option String
deriving DecidableEq

/-- `ClientOptions` from src/options.rs. -/
structure ClientOptions where
  session : Option SessionInformations
  working_directory : String
  data_representation : DataType
  local_bytes : Int
  listen_mode : ListenMode
deriving DecidableEq

/-- `CommandReturnType` from src/commands.rs; a TCP listener is identified by
its bound port. -/
inductive CommandReturnType where
  | none
  | bool (b : Bool)
  | str (s : String)
  | tcpListener (port : Nat)
deriving DecidableEq

/-- Result of one handler invocation: `CommandResult` from src/commands.rs
(`Ok` carrying code, message, multiline flag and return value, or `Err`
carrying code and message), extended with a `panicked` constructor for Rust
panics such as `unwrap` on `None`. -/
inductive CommandResult where
  | ok (code : Int) (message : String) (multilines : Bool) (ret : CommandReturnType)
  | err (code : Int) (message : String)
  | panicked (msg : String)
deriving DecidableEq

/-- The per-connection mutable state of `FtpClient`: its `ClientOptions` and
the pending `data_listener` (the port of the armed listener, if any). -/
structure FtpClientState where
  options : ClientOptions
  data_listener : Option Nat
deriving DecidableEq

/-- File metadata read by the LIST handler (the subset of `fs::Metadata`
the code uses). `modified` is the already chrono-formatted modification
time, `none` when `metadata.modified()` errors; `user` and `group` are the
names resolved through `getpwuid`/`getgrgid`. -/
structure Metadata where
  mode : Nat
  isDir : Bool
  len : Nat
  modified : Option String
  user : String
  group : String
deriving DecidableEq

/-- One `fs::read_dir` entry: `ok = false` models an `Err` entry, `name =
none` a file name that is not valid Unicode, `meta = none` a failing
`fs::metadata` call. All of those entries are silently skipped by LIST. -/
structure DirEntry where
  ok : Bool
  name : Option String
  meta : Option Metadata
deriving DecidableEq

/-- Environment oracles standing for the OS facilities the handlers call:
the configured hostname, which ports `TcpListener::bind` accepts, what
`Path::try_exists` answers (`none` models an `Err`), what `fs::read_dir`
returns (`none` models an `Err`), and whether `accept` on the armed data
listener succeeds. -/
structure World where
  hostname : String
  portFree : Nat → Bool
  pathExists : String → Option Bool
  readDir : String → Option (List DirEntry)
  acceptOk : Bool

/-- Rust `hostname.replace(".", ",")`: a single-character pattern, hence a
character map. -/
def replaceDots (s : String) : String :=
  String.mk (s.data.map (fun c => if c = '.' then ',' else c))

/-- Rust `trim_end_matches("/")`: drop every trailing slash. -/
def trimEndSlashes (s : String) : String :=
  String.mk ((s.data.reverse.dropWhile (fun c => c = '/')).reverse)

/-- Rust `wd.rfind("/")`: position of the last slash, if any. -/
def lastSlashIdx (l : List Char) : Option Nat :=
  match l.reverse.findIdx? (fun c => c = '/') with
  | some j => some (l.length - 1 - j)
  | Option.none => Option.none

/-- Rust `path.starts_with("/")`. -/
def startsWithSlash (s : String) : Bool :=
  match s.data with
  | '/' :: _ => true
  | _ => false

/-- Rust `trim()` (on the whitespace the protocol uses). -/
def rustTrim (s : String) : String :=
  String.mk (((s.data.dropWhile Char.isWhitespace).reverse.dropWhile
    Char.isWhitespace).reverse)

/-- Rust `request.split(' ')` on the character list: consecutive separators
produce empty fragments and the result is never empty. -/
def splitCharsOnSpace : List Char → List (List Char)
  | [] => [[]]
  | c :: cs =>
    let r := splitCharsOnSpace cs
    if c = ' ' then [] :: r
    else
      match r with
      | [] => [[c]]
      | h :: t => (c :: h) :: t

/-- Rust `request.split(' ')`. -/
def splitOnSpace (s : String) : List String :=
  (splitCharsOnSpace s.data).map String.mk

/-- Rust `to_uppercase()` of a command verb (ASCII in this protocol). -/
def asciiUpper (s : String) : String :=
  String.mk (s.data.map Char.toUpper)

/-- Rust `str::parse::<i32>`: optional sign, at least one ASCII digit, value
within the i32 range. -/
def parseI32 (s : String) : Option Int :=
  let signDigits : Bool × List Char :=
    match s.data with
    | '+' :: rest => (false, rest)
    | '-' :: rest => (true, rest)
    | l => (false, l)
  let neg := signDigits.1
  let digits := signDigits.2
  if digits = [] then Option.none
  else if digits.all (fun c => c.isDigit) then
    let mag : Nat := digits.foldl (fun acc c => acc * 10 + (c.toNat - 48)) 0
    let v : Int := if neg then -(mag : Int) else (mag : Int)
    if -2147483648 ≤ v ∧ v ≤ 2147483647 then some v else Option.none
  else Option.none

/-- `FtpClient::exec_user_command` (src/server/ftp_client.rs): joins all
argument tokens into a user name and replaces the session. -/
def exec_user_command (opts : ClientOptions) (args : List String) :
    ClientOptions × CommandResult :=
  let username := rustTrim (String.join (args.map (fun a => a ++ " ")))
  ({ opts with session := some ⟨username, Option.none⟩ },
   .ok 230 "user connected" false .none)

/-- `FtpClient::exec_syst_command`. -/
def exec_syst_command : CommandResult :=
  .ok 215 "UNIX Type: L8" false .none

/-- `FtpClient::exec_feat_command`. -/
def exec_feat_command : CommandResult :=
  .ok 211 "-Features\r\nUTF8" true .none

/-- `FtpClient::exec_opts_command`. -/
def exec_opts_command (args : List String) : CommandResult :=
  match args with
  | [] => .err 501 "Syntax error in arguments"
  | arg :: _ =>
    if arg = "UTF8" then .ok 202 "UTF8 mode is always ON" false .none
    else .err 504 "command not implemented for this option"

/-- `FtpClient::exec_pwd_command`. -/
def exec_pwd_command (opts : ClientOptions) : CommandResult :=
  .ok 257 ("\"" ++ opts.working_directory ++ "\"") false .none

/-- `FtpClient::exec_type_command`. Mirrors the source exactly: in the `L`
branch the representation is set to `Local` before the byte size is parsed,
so a failing parse still leaves the mutated representation behind. -/
def exec_type_command (opts : ClientOptions) (args : List String) :
    ClientOptions × CommandResult :=
  match args with
  | [] => (opts, .err 501 "Syntax error in arguments")
  | typee :: rest =>
    if typee = "A" then
      ({ opts with data_representation := .ASCII }, .ok 200 "command OK" false .none)
    else if typee = "E" then
      ({ opts with data_representation := .EBCDIC }, .ok 200 "command OK" false .none)
    else if typee = "I" then
      ({ opts with data_representation := .Image }, .ok 200 "command OK" false .none)
    else if typee = "L" then
      match rest with
      | [] => (opts, .err 501 "Syntax error in arguments")
      | byte_size :: _ =>
        match parseI32 byte_size with
        | some size =>
          ({ opts with data_representation := .Local, local_bytes := size },
           .ok 200 "command OK" false .none)
        | Option.none =>
          ({ opts with data_representation := .Local },
           .err 501 "Syntax error in arguments")
    else (opts, .err 504 "command not implemented for this option")

/-- The `for p in 7000..65535` bind loop of `exec_pasv_command`: the first
port `p` with `start ≤ p < start + fuel` that `free` accepts. -/
def findPortFrom (free : Nat → Bool) : Nat → Nat → Option Nat
  | _, 0 => Option.none
  | p, fuel + 1 => if free p then some p else findPortFrom free (p + 1) fuel

/-- `FtpClient::exec_pasv_command`: sets passive mode, searches ports 7000
up to (excluding) 65535 for a bindable one, and encodes host and port into
the 227 reply; 425 when no port binds. -/
def exec_pasv_command (w : World) (opts : ClientOptions) :
    ClientOptions × CommandResult :=
  let opts := { opts with listen_mode := ListenMode.Passive }
  match findPortFrom w.portFree 7000 58535 with
  | some port =>
    let p1 := port / 256
    let p2 := port - p1 * 256
    (opts,
     .ok 227
       ("Entering passive mode (" ++ replaceDots w.hostname ++ "," ++
         toString p1 ++ "," ++ toString p2 ++ ")")
       false (.tcpListener port))
  | Option.none => (opts, .err 425 "cannot open data connection")

/-- One permission character of a LIST line. -/
def permChar (perms mask : Nat) (c : Char) : String :=
  if perms &&& mask > 0 then String.singleton c else "-"

/-- Width-5 right justification applied to the modification time. -/
def padLeft5 (s : String) : String :=
  if s.length < 5 then String.mk (List.replicate (5 - s.length) ' ') ++ s else s

/-- The listing line built for one directory entry in `exec_list_command`;
`none` when the entry, its name, its metadata or its mtime is unavailable
(such entries are skipped). -/
def formatEntry (e : DirEntry) : Option String :=
  if e.ok = false then Option.none else
  match e.name with
  | Option.none => Option.none
  | some name =>
    match e.meta with
    | Option.none => Option.none
    | some m =>
      match m.modified with
      | Option.none => Option.none
      | some dt =>
        some ((if m.isDir then "d" else "-") ++
          permChar m.mode 0o400 'r' ++ permChar m.mode 0o200 'w' ++
          permChar m.mode 0o100 'x' ++
          permChar m.mode 0o40 'r' ++ permChar m.mode 0o20 'w' ++
          permChar m.mode 0o10 'x' ++
          permChar m.mode 0o4 'r' ++ permChar m.mode 0o2 'w' ++
          permChar m.mode 0o1 'x' ++
          " " ++ m.user ++ " " ++ m.group ++ " " ++ toString m.len ++ " " ++
          padLeft5 dt ++ " " ++ name ++ "\r\n")

/-- `FtpClient::exec_list_command`. Returns the control-connection writes,
the data-connection writes, and the command result, in program order:
unwrap the pending listener (a panic when absent), read the directory (550
on error), write `150 ok` to the control connection, accept on the data
listener (425 on error), stream one line per usable entry to the data
connection, write the 226 notice to the control connection, return 250. -/
def exec_list_command (w : World) (opts : ClientOptions) (dl : Option Nat) :
    List String × List String × CommandResult :=
  match dl with
  | Option.none => ([], [], .panicked "called Option::unwrap on a None value")
  | some _ =>
    match w.readDir opts.working_directory with
    | Option.none => ([], [], .err 550 "cannot access directory")
    | some entries =>
      if w.acceptOk = false then
        (["150 ok\r\n"], [], .err 425 "cannot open data connection")
      else
        (["150 ok\r\n", "226 closing data connection\r\n"],
         entries.filterMap formatEntry,
         .ok 250 "ok" false .none)

/-- Path resolution performed by `exec_cwd_command` before the existence
check: absolute paths pass through; `..` moves to the parent of the
trailing-slash-stripped cwd (the root stays the root); any other relative
path is appended to the stripped cwd and stripped again. -/
def resolveCwdPath (wd p : String) : String :=
  if startsWithSlash p then p
  else
    let wdt := trimEndSlashes wd
    if p = ".." then
      match lastSlashIdx wdt.data with
      | some idx => if idx > 0 then String.mk (wdt.data.take idx) else "/"
      | Option.none => "/"
    else trimEndSlashes ((wdt ++ "/") ++ p)

/-- `FtpClient::exec_cwd_command`: 501 without a path, otherwise resolve
the target, then 550 when it does not exist, 450 when the existence check
errors, and only in the success case mutate the working directory. -/
def exec_cwd_command (w : World) (opts : ClientOptions) (args : List String) :
    ClientOptions × CommandResult :=
  match args with
  | [] => (opts, .err 501 "missing pathname")
  | p :: _ =>
    let path := resolveCwdPath opts.working_directory p
    match w.pathExists path with
    | some res =>
      if res = false then (opts, .err 550 (path ++ " inexistant path"))
      else ({ opts with working_directory := path }, .ok 250 "ok" false .none)
    | Option.none => (opts, .err 450 "error")

/-- `FtpClient::exec_cdup_command`: delegates to CWD with `..`. -/
def exec_cdup_command (w : World) (opts : ClientOptions) :
    ClientOptions × CommandResult :=
  exec_cwd_command w opts [".."]

/-- The final control reply built at the bottom of `handle_connection`:
either `CODE message` or the two-line `CODE-message … CODE End` framing. -/
def mkReply (code : Int) (message : String) (multilines : Bool) : String :=
  if multilines then
    toString code ++ "-" ++ message ++ "\r\n" ++ toString code ++ " End\r\n"
  else toString code ++ " " ++ message ++ "\r\n"

/-- The outcome of dispatching one request line: the session state after
the handler ran, the control-connection writes (any mid-command writes
followed by the final reply) and the data-connection writes. -/
structure StepOut where
  state : FtpClientState
  control : List String
  data : List String
deriving DecidableEq

/-- Result of one iteration of the request loop body: either a reply was
produced and the loop continues, or a handler panicked and the whole
connection thread unwinds. -/
inductive StepResult where
  | next (o : StepOut)
  | panicked (msg : String)
deriving DecidableEq

/-- Uniform treatment, in `handle_connection`, of a handler whose
`CommandReturnType` is ignored: take code/message (and the multiline flag
only from the `Ok` arm — it stays `false` on `Err`), keep the listener. -/
def finishSimple (st : FtpClientState) (opts : ClientOptions) :
    CommandResult → StepResult
  | .ok c m l _ => .next ⟨⟨opts, st.data_listener⟩, [mkReply c m l], []⟩
  | .err c m => .next ⟨⟨opts, st.data_listener⟩, [mkReply c m false], []⟩
  | .panicked msg => .panicked msg

/-- The body of the request loop of `handle_connection` for one already
trimmed, non-empty request line: split on spaces, uppercase the verb,
dispatch, store the listener a successful PASV returned, and append the
final reply to the control writes. Unknown verbs get `502 no
implementation` without touching the session. -/
def processRequest (w : World) (st : FtpClientState) (request : String) :
    StepResult :=
  match splitOnSpace request with
  | [] => .panicked "called Option::unwrap on a None value"
  | cmdRaw :: rest =>
    let command := asciiUpper cmdRaw
    if command = "USER" then
      match exec_user_command st.options rest with
      | (opts, r) => finishSimple st opts r
    else if command = "SYST" then
      finishSimple st st.options exec_syst_command
    else if command = "FEAT" then
      finishSimple st st.options exec_feat_command
    else if command = "OPTS" then
      finishSimple st st.options (exec_opts_command rest)
    else if command = "PWD" then
      finishSimple st st.options (exec_pwd_command st.options)
    else if command = "TYPE" then
      match exec_type_command st.options rest with
      | (opts, r) => finishSimple st opts r
    else if command = "PASV" then
      match exec_pasv_command w st.options with
      | (opts, .ok c m l ret) =>
        let dl := match ret with
          | .tcpListener p => some p
          | _ => st.data_listener
        .next ⟨⟨opts, dl⟩, [mkReply c m l], []⟩
      | (opts, .err c m) => .next ⟨⟨opts, st.data_listener⟩, [mkReply c m false], []⟩
      | (_, .panicked msg) => .panicked msg
    else if command = "LIST" then
      match exec_list_command w st.options st.data_listener with
      | (ctl, dat, .ok c m l _) => .next ⟨st, ctl ++ [mkReply c m l], dat⟩
      | (ctl, dat, .err c m) => .next ⟨st, ctl ++ [mkReply c m false], dat⟩
      | (_, _, .panicked msg) => .panicked msg
    else if command = "CWD" then
      match exec_cwd_command w st.options rest with
      | (opts, r) => finishSimple st opts r
    else if command = "CDUP" then
      match exec_cdup_command w st.options with
      | (opts, r) => finishSimple st opts r
    else
      .next ⟨st, [mkReply 502 "no implementation" false], []⟩

/-- One read from the control connection, as `FtpClient::read_line` sees
it: the raw bytes of one line (empty when the peer has closed, since a
closed peer yields a zero-byte read), or an I/O error. -/
inductive ReadEvent where
  | bytes (raw : String)
  | ioErr (msg : String)
deriving DecidableEq

/-- How the request loop of `handle_connection` ended on a finite trace of
reads: still waiting for input, returned `Err(msg)` to the caller, or the
connection thread unwound on a panic. -/
inductive LoopResult where
  | pending (st : FtpClientState)
  | errResult (msg : String)
  | panicked (msg : String)
deriving DecidableEq

/-- The request loop of `handle_connection` over a finite trace of reads:
returns the control writes, the data writes, and how the loop ended. A
line that trims to the empty string ends the loop with `Err("EOF
reached")`; a read error ends it with the wrapped error message. -/
def handleLoop (w : World) : FtpClientState → List ReadEvent →
    List String × List String × LoopResult
  | st, [] => ([], [], .pending st)
  | st, ev :: rest =>
    match ev with
    | .ioErr msg => ([], [], .errResult ("cannot read client request: " ++ msg))
    | .bytes raw =>
      let line := rustTrim raw
      if line = "" then ([], [], .errResult "EOF reached")
      else
        match processRequest w st line with
        | .panicked msg => ([], [], .panicked msg)
        | .next o =>
          match handleLoop w o.state rest with
          | (c, d, r) => (o.control ++ c, o.data ++ d, r)

/-- The state `FtpClient::build` creates for a fresh connection. -/
def initialClientState : FtpClientState :=
  ⟨⟨Option.none, "/", DataType.ASCII, 0, ListenMode.Active⟩, Option.none⟩

/-- `handle_connection`: send the `220 ready` greeting, then run the
request loop on a fresh session. -/
def handleConnection (w : World) (events : List ReadEvent) :
    List String × List String × LoopResult :=
  match handleLoop w initialClientState events with
  | (c, d, r) => ("220 ready\r\n" :: c, d, r)

/-- What the job submitted in `FtpServer::start` does with the result of
`handle_connection` (`unwrap_or_else` printing to stderr): an `Err` is
logged as an error; nothing is logged otherwise. -/
def connectionErrorLog : LoopResult → Option String
  | .errResult msg => some ("Error occured when handling connection: " ++ msg ++ ".")
  | _ => Option.none

/-- Result of `ThreadPool::build` (src/thread_pool.rs): the ids of the
workers spawned on success; a panic when the `assert!` fires — which
happens before any worker is spawned; no code path returns `Err`. -/
inductive PoolBuildResult where
  | ok (workers : List Nat)
  | err (msg : String)
  | panicked (msg : String)
deriving DecidableEq

/-- `ThreadPool::build`: asserts `size > 0` (a panic otherwise) and then
spawns workers `0, …, size - 1`. -/
def ThreadPool.build (size : Nat) : PoolBuildResult :=
  if size > 0 then .ok (List.range size)
  else .panicked "ThreadPool need at least a size of 1"

/-- World in which everything succeeds: port 7000 is free, every path
exists, every directory is empty, the data accept succeeds. -/
def wA : World :=
  ⟨"127.0.0.1", fun p => p == 7000, fun _ => some true, fun _ => some [], true⟩

/-- The session state after a successful PASV on a fresh session in `wA`. -/
def stArmed : FtpClientState :=
  ⟨{ initialClientState.options with listen_mode := ListenMode.Passive }, some 7000⟩

/-- World used to exercise CWD success at the root: only `/` exists. -/
def wC5 : World :=
  ⟨"127.0.0.1", fun _ => false,
   fun p => if p = "/" then some true else some false,
   fun _ => Option.none, false⟩

/-- World used to exercise the CWD failure paths: `/missing` does not
exist and the existence check on `/errdir` errors. -/
def wC6 : World :=
  ⟨"127.0.0.1", fun _ => false,
   fun p =>
     if p = "/missing" then some false
     else if p = "/errdir" then Option.none
     else some true,
   fun _ => Option.none, false⟩

/-- A fully usable directory entry for exercising LIST. -/
def entryE : DirEntry :=
  ⟨true, some "file.txt", some ⟨0o644, false, 1234, some "Jan 01 00:00", "root", "root"⟩⟩

/-- World whose working directory holds exactly `entryE`, with a
succeeding data accept. -/
def wE : World :=
  ⟨"127.0.0.1", fun p => p == 7000, fun _ => some true, fun _ => some [entryE], true⟩

/-! Helper lemmas about the port-search loop and host encoding. -/

theorem findPortFrom_some_spec (free : Nat → Bool) :
    ∀ (fuel start p : Nat), findPortFrom free start fuel = some p →
      free p = true ∧ start ≤ p ∧ p < start + fuel ∧
      ∀ q, start ≤ q → q < p → free q = false := by
  intro fuel
  induction fuel with
  | zero => intro start p h; simp [findPortFrom] at h
  | succ n ih =>
    intro start p h
    rw [findPortFrom] at h
    by_cases hf : free start = true
    · rw [if_pos hf] at h
      obtain rfl : start = p := by simpa using h
      exact ⟨hf, Nat.le_refl _, by omega, fun q hq1 hq2 => absurd hq1 (by omega)⟩
    · rw [if_neg hf] at h
      obtain ⟨h1, h2, h3, h4⟩ := ih (start + 1) p h
      refine ⟨h1, by omega, by omega, ?_⟩
      intro q hq1 hq2
      rcases Nat.eq_or_lt_of_le hq1 with rfl | hlt
      · simpa using hf
      · exact h4 q (by omega) hq2

theorem findPortFrom_eq_none (free : Nat → Bool) :
    ∀ (fuel start : Nat), (∀ q, start ≤ q → q < start + fuel → free q = false) →
      findPortFrom free start fuel = Option.none := by
  intro fuel
  induction fuel with
  | zero => intro start _; rfl
  | succ n ih =>
    intro start h
    rw [findPortFrom]
    rw [if_neg (by simp [h start (Nat.le_refl _) (by omega)])]
    exact ih (start + 1) (fun q hq1 hq2 => h q (by omega) (by omega))

theorem map_dot_id (l : List Char) (h : '.' ∉ l) :
    l.map (fun c => if c = '.' then ',' else c) = l := by
  induction l with
  | nil => rfl
  | cons c cs ih =>
    simp only [List.mem_cons, not_or] at h
    simp only [List.map_cons]
    rw [if_neg (fun e => h.1 e.symm), ih h.2]

theorem replaceDots_append (a b : String) :
    replaceDots (a ++ b) = replaceDots a ++ replaceDots b := by
  cases a with
  | mk la =>
  cases b with
  | mk lb =>
  show String.mk ((la ++ lb).map (fun c => if c = '.' then ',' else c)) =
    String.mk (la.map (fun c => if c = '.' then ',' else c) ++
      lb.map (fun c => if c = '.' then ',' else c))
  rw [List.map_append]

theorem replaceDots_of_no_dot (s : String) (h : '.' ∉ s.data) :
    replaceDots s = s := by
  cases s with
  | mk l =>
  show String.mk (l.map (fun c => if c = '.' then ',' else c)) = String.mk l
  rw [map_dot_id l h]

theorem replaceDots_dot : replaceDots "." = "," := by decide

/-! Claim C4. -/

/-- C4 counterexample: `ThreadPool::build(0)` fires the `assert!` and
panics; it does not return the error result `Error("invalid size")` the
claim states. -/
theorem c4_counterexample :
    ThreadPool.build 0 = PoolBuildResult.panicked "ThreadPool need at least a size of 1" ∧
    ThreadPool.build 0 ≠ PoolBuildResult.err "invalid size" := by decide

/-- C4 amended: calling `ThreadPool::build` with `size == 0` is rejected
eagerly, before any worker is spawned and before any work can be accepted
— but by a panic (the assertion `ThreadPool need at least a size of 1`),
not by returning an error result; no input makes `build` return an error
value, and every positive size yields a pool with exactly that many
workers. -/
theorem c4_zero_size_rejected_by_panic :
    ThreadPool.build 0 = PoolBuildResult.panicked "ThreadPool need at least a size of 1" ∧
    (∀ size : Nat, 0 < size → ThreadPool.build size = PoolBuildResult.ok (List.range size)) ∧
    ∀ (size : Nat) (msg : String), ThreadPool.build size ≠ PoolBuildResult.err msg := by
  refine ⟨by decide, ?_, ?_⟩
  · intro size h
    simp [ThreadPool.build, h]
  · intro size msg
    unfold ThreadPool.build
    split <;> simp

/-- C4 witness: the amended theorem evaluated at size 3. -/
theorem c4_witness : ThreadPool.build 3 = PoolBuildResult.ok [0, 1, 2] := by
  have h := c4_zero_size_rejected_by_panic.2.1 3 (by decide)
  exact h.trans (by decide)

/-! Claim C5. -/

/-- C5: CWD with `..` while the working directory is the root resolves to
the root (and succeeds when the root exists), and a relative `sub` from
`/a` resolves to `/a/sub`, trailing separators being stripped before and
after concatenation exactly as `exec_cwd_command` does. -/
theorem c5_cwd_dotdot_root_and_relative :
    resolveCwdPath "/" ".." = "/" ∧
    resolveCwdPath "/a" "sub" = "/a/sub" ∧
    ∀ (w : World) (opts : ClientOptions),
      opts.working_directory = "/" → w.pathExists "/" = some true →
      exec_cwd_command w opts [".."] = (opts, .ok 250 "ok" false .none) := by
  refine ⟨by decide, by decide, ?_⟩
  intro w opts hwd hex
  obtain ⟨s, wd, dr, lb, lm⟩ := opts
  simp only at hwd
  subst hwd
  simp only [exec_cwd_command]
  rw [show resolveCwdPath "/" ".." = "/" from by decide, hex]
  simp

/-- C5 witness: the success conjunct evaluated on a fresh session in a
world where the root exists. -/
theorem c5_witness :
    exec_cwd_command wC5 initialClientState.options [".."] =
      (initialClientState.options, .ok 250 "ok" false .none) :=
  c5_cwd_dotdot_root_and_relative.2.2 wC5 initialClientState.options rfl (by decide)

/-! Claim C6. -/

/-- C6: whenever the resolved CWD target does not exist the handler
returns 550 and the options — the working directory in particular — are
returned unchanged; whenever the existence check itself errors it returns
450, likewise leaving the options unchanged. -/
theorem c6_cwd_missing_550_stat_err_450 :
    ∀ (w : World) (opts : ClientOptions) (p : String) (rest : List String),
      (w.pathExists (resolveCwdPath opts.working_directory p) = some false →
        exec_cwd_command w opts (p :: rest) =
          (opts, .err 550 (resolveCwdPath opts.working_directory p ++ " inexistant path"))) ∧
      (w.pathExists (resolveCwdPath opts.working_directory p) = Option.none →
        exec_cwd_command w opts (p :: rest) = (opts, .err 450 "error")) := by
  intro w opts p rest
  constructor
  · intro h
    simp [exec_cwd_command, h]
  · intro h
    simp [exec_cwd_command, h]

/-- C6 witness: both failure paths evaluated on a fresh session in `wC6`. -/
theorem c6_witness :
    exec_cwd_command wC6 initialClientState.options ["missing"] =
      (initialClientState.options, .err 550 "/missing inexistant path") ∧
    exec_cwd_command wC6 initialClientState.options ["errdir"] =
      (initialClientState.options, .err 450 "error") := by
  constructor
  · have h := (c6_cwd_missing_550_stat_err_450 wC6 initialClientState.options
      "missing" []).1 (by decide)
    exact h.trans (by decide)
  · exact (c6_cwd_missing_550_stat_err_450 wC6 initialClientState.options
      "errdir" []).2 (by decide)

/-! Claim C3. -/

/-- C3: a PASV invocation searches candidate ports upward from 7000 and
binds the first free one; the 227 message encodes the configured host's
four dotted components as comma-separated octets followed by two integers
whose value `p1 * 256 + p2` equals the bound port; when no port in the
range binds, the handler fails with 425. -/
theorem c3_pasv_port_search_and_reply
    (w : World) (opts : ClientOptions) (h1 h2 h3 h4 : String)
    (hh : w.hostname = h1 ++ "." ++ h2 ++ "." ++ h3 ++ "." ++ h4)
    (nd1 : '.' ∉ h1.data) (nd2 : '.' ∉ h2.data)
    (nd3 : '.' ∉ h3.data) (nd4 : '.' ∉ h4.data) :
    (∀ port, findPortFrom w.portFree 7000 58535 = some port →
      exec_pasv_command w opts =
        ({ opts with listen_mode := ListenMode.Passive },
         .ok 227
           ("Entering passive mode (" ++ (h1 ++ "," ++ h2 ++ "," ++ h3 ++ "," ++ h4) ++
             "," ++ toString (port / 256) ++ "," ++ toString (port - port / 256 * 256) ++ ")")
           false (.tcpListener port)) ∧
      port / 256 * 256 + (port - port / 256 * 256) = port ∧
      w.portFree port = true ∧ 7000 ≤ port ∧ port < 65535 ∧
      ∀ q, 7000 ≤ q → q < port → w.portFree q = false) ∧
    ((∀ q, 7000 ≤ q → q < 65535 → w.portFree q = false) →
      exec_pasv_command w opts =
        ({ opts with listen_mode := ListenMode.Passive },
         .err 425 "cannot open data connection")) := by
  constructor
  · intro port hfind
    obtain ⟨hfree, hge, hlt, hmin⟩ :=
      findPortFrom_some_spec w.portFree 58535 7000 port hfind
    refine ⟨?_, ?_, hfree, hge, by omega, hmin⟩
    · simp only [exec_pasv_command, hfind]
      rw [hh]
      simp only [replaceDots_append, replaceDots_dot,
        replaceDots_of_no_dot h1 nd1, replaceDots_of_no_dot h2 nd2,
        replaceDots_of_no_dot h3 nd3, replaceDots_of_no_dot h4 nd4]
    · have := Nat.div_mul_le_self port 256
      omega
  · intro hnone
    have h0 : findPortFrom w.portFree 7000 58535 = Option.none :=
      findPortFrom_eq_none w.portFree 58535 7000
        (fun q hq1 hq2 => hnone q hq1 (by omega))
    simp [exec_pasv_command, h0]

/-- C3 witness: the theorem evaluated in `wA`, whose host is
`127.0.0.1` and whose only free port is 7000 = 27 * 256 + 88. -/
theorem c3_witness :
    exec_pasv_command wA initialClientState.options =
      ({ initialClientState.options with listen_mode := ListenMode.Passive },
       .ok 227 "Entering passive mode (127,0,0,1,27,88)" false (.tcpListener 7000)) := by
  have h := (c3_pasv_port_search_and_reply wA initialClientState.options
    "127" "0" "0" "1" (by decide) (by decide) (by decide) (by decide) (by decide)).1
    7000 rfl
  exact h.1.trans (by decide)

/-! Unfolding equations for the dispatcher applied to fixed verbs. -/

theorem processRequest_list_eq (w : World) (st : FtpClientState) :
    processRequest w st "LIST" =
      match exec_list_command w st.options st.data_listener with
      | (ctl, dat, .ok c m l _) => .next ⟨st, ctl ++ [mkReply c m l], dat⟩
      | (ctl, dat, .err c m) => .next ⟨st, ctl ++ [mkReply c m false], dat⟩
      | (_, _, .panicked msg) => .panicked msg := rfl

theorem processRequest_pasv_eq (w : World) (st : FtpClientState) :
    processRequest w st "PASV" =
      match exec_pasv_command w st.options with
      | (opts, .ok c m l ret) =>
        .next ⟨⟨opts,
          match ret with
          | .tcpListener p => some p
          | _ => st.data_listener⟩, [mkReply c m l], []⟩
      | (opts, .err c m) => .next ⟨⟨opts, st.data_listener⟩, [mkReply c m false], []⟩
      | (_, .panicked msg) => .panicked msg := rfl

/-! Claim C1. -/

/-- C1 counterexample: on a fresh session, whose pending data listener is
absent, the LIST command does not return a 425 failure outcome — the
handler unwraps the absent listener and panics, so no reply at all is
produced for the request. -/
theorem c1_counterexample :
    processRequest wA initialClientState "LIST" =
      .panicked "called Option::unwrap on a None value" := by decide

/-- C1 amended: for every session whose pending data listener is absent,
invoking LIST panics (unwrap of `None`), aborting the connection handler
instead of returning a 425 failure; and because a LIST leaves the session
state — the armed listener included — unchanged, a second LIST after one
PASV+LIST cycle does not fail with 425: with the directory readable and a
data connection arriving it repeats the transfer and replies 250. -/
theorem c1_list_unarmed_panics_and_listener_persists :
    (∀ (w : World) (st : FtpClientState), st.data_listener = Option.none →
      processRequest w st "LIST" = .panicked "called Option::unwrap on a None value") ∧
    ∀ (w : World) (st : FtpClientState) (port : Nat) (es : List DirEntry),
      st.data_listener = some port →
      w.readDir st.options.working_directory = some es →
      w.acceptOk = true →
      processRequest w st "LIST" =
        .next ⟨st, ["150 ok\r\n", "226 closing data connection\r\n", "250 ok\r\n"],
          es.filterMap formatEntry⟩ ∧
      ∀ o, processRequest w st "LIST" = .next o →
        processRequest w o.state "LIST" = processRequest w st "LIST" := by
  constructor
  · intro w st h
    rw [processRequest_list_eq]
    simp [exec_list_command, h]
  · intro w st port es hdl hrd hacc
    have hstep : processRequest w st "LIST" =
        .next ⟨st, ["150 ok\r\n", "226 closing data connection\r\n", "250 ok\r\n"],
          es.filterMap formatEntry⟩ := by
      rw [processRequest_list_eq]
      simp [exec_list_command, hdl, hrd, hacc]
      rfl
    refine ⟨hstep, ?_⟩
    intro o ho
    rw [hstep] at ho
    obtain rfl : (⟨st, ["150 ok\r\n", "226 closing data connection\r\n", "250 ok\r\n"],
        es.filterMap formatEntry⟩ : StepOut) = o := by
      cases ho
      rfl
    exact rfl

/-- C1 witness: the amended theorem evaluated on the fresh session (panic
case) and on the armed session `stArmed` in `wE` (second-LIST case). -/
theorem c1_witness :
    processRequest wE initialClientState "LIST" =
      .panicked "called Option::unwrap on a None value" ∧
    processRequest wE stArmed "LIST" =
      .next ⟨stArmed, ["150 ok\r\n", "226 closing data connection\r\n", "250 ok\r\n"],
        ["-rw-r--r-- root root 1234 Jan 01 00:00 file.txt\r\n"]⟩ := by
  constructor
  · exact c1_list_unarmed_panics_and_listener_persists.1 wE initialClientState rfl
  · have h := (c1_list_unarmed_panics_and_listener_persists.2 wE stArmed 7000
      [entryE] rfl rfl rfl).1
    exact h.trans (by decide)

/-! Claim C2. -/

/-- C2 counterexample: after one PASV+LIST cycle in `wA` the pending data
listener is still `some 7000` — the LIST did not consume (take) it, the
session state after the LIST is identical to the armed state before it. -/
theorem c2_counterexample :
    processRequest wA initialClientState "PASV" =
      .next ⟨stArmed, ["227 Entering passive mode (127,0,0,1,27,88)\r\n"], []⟩ ∧
    processRequest wA stArmed "LIST" =
      .next ⟨stArmed, ["150 ok\r\n", "226 closing data connection\r\n", "250 ok\r\n"], []⟩ ∧
    stArmed.data_listener = some 7000 := by decide

/-- C2 amended: the pending data listener is set by a successful PASV (to
the newly bound port), but it is not consumed by the subsequent LIST: a
LIST that produces any outcome leaves the whole session state, the pending
listener included, exactly as it was; the listener is only replaced by a
later PASV or dropped when the session ends. -/
theorem c2_listener_not_consumed :
    (∀ (w : World) (st : FtpClientState) (o : StepOut),
      processRequest w st "LIST" = .next o → o.state = st) ∧
    ∀ (w : World) (st : FtpClientState) (port : Nat),
      findPortFrom w.portFree 7000 58535 = some port →
      ∃ m, processRequest w st "PASV" =
        .next ⟨⟨{ st.options with listen_mode := ListenMode.Passive }, some port⟩,
          [mkReply 227 m false], []⟩ := by
  constructor
  · intro w st o h
    rw [processRequest_list_eq] at h
    rcases he : exec_list_command w st.options st.data_listener with ⟨ctl, dat, res⟩
    rw [he] at h
    cases res with
    | ok c m l r =>
      injection h with h2
      rw [← h2]
    | err c m =>
      injection h with h2
      rw [← h2]
    | panicked m => exact StepResult.noConfusion h
  · intro w st port hfind
    refine ⟨"Entering passive mode (" ++ replaceDots w.hostname ++ "," ++
      toString (port / 256) ++ "," ++ toString (port - port / 256 * 256) ++ ")", ?_⟩
    rw [processRequest_pasv_eq]
    simp [exec_pasv_command, hfind]

/-- C2 witness: the amended theorem evaluated on the armed session in
`wA`: the LIST step leaves the state untouched, and the PASV step arms
port 7000. -/
theorem c2_witness :
    (⟨stArmed, ["150 ok\r\n", "226 closing data connection\r\n", "250 ok\r\n"],
      ([] : List String)⟩ : StepOut).state = stArmed ∧
    ∃ m, processRequest wA initialClientState "PASV" =
      .next ⟨⟨{ initialClientState.options with listen_mode := ListenMode.Passive },
        some 7000⟩, [mkReply 227 m false], []⟩ := by
  constructor
  · exact c2_listener_not_consumed.1 wA stArmed _ (by decide)
  · exact c2_listener_not_consumed.2 wA initialClientState 7000 rfl

/-! Claim C9. -/

/-- C9 counterexample: a successful LIST on the armed session in `wE`
writes the 150 preliminary reply, the 226 completion notice and the final
250 reply all to the control connection; the 226 notice is not among the
data-connection writes, and the control trace is not `250` alone. -/
theorem c9_counterexample :
    processRequest wE stArmed "LIST" =
      .next ⟨stArmed, ["150 ok\r\n", "226 closing data connection\r\n", "250 ok\r\n"],
        ["-rw-r--r-- root root 1234 Jan 01 00:00 file.txt\r\n"]⟩ ∧
    "226 closing data connection\r\n" ∉
      (["-rw-r--r-- root root 1234 Jan 01 00:00 file.txt\r\n"] : List String) ∧
    (["150 ok\r\n", "226 closing data connection\r\n", "250 ok\r\n"] : List String) ≠
      ["250 ok\r\n"] := by decide

/-- C9 amended: for every successful LIST transfer the directory-listing
lines are written to the data connection, while the 150 preliminary
reply, the 226 completion notice and the final 250 reply are all written
to the control connection — the data connection receives only the listing
lines. -/
theorem c9_list_writes_routing :
    ∀ (w : World) (st : FtpClientState) (port : Nat) (es : List DirEntry),
      st.data_listener = some port →
      w.readDir st.options.working_directory = some es →
      w.acceptOk = true →
      exec_list_command w st.options st.data_listener =
        (["150 ok\r\n", "226 closing data connection\r\n"], es.filterMap formatEntry,
          .ok 250 "ok" false .none) ∧
      processRequest w st "LIST" =
        .next ⟨st, ["150 ok\r\n", "226 closing data connection\r\n", "250 ok\r\n"],
          es.filterMap formatEntry⟩ := by
  intro w st port es hdl hrd hacc
  have hexec : exec_list_command w st.options st.data_listener =
      (["150 ok\r\n", "226 closing data connection\r\n"], es.filterMap formatEntry,
        .ok 250 "ok" false .none) := by
    simp [exec_list_command, hdl, hrd, hacc]
  refine ⟨hexec, ?_⟩
  rw [processRequest_list_eq, hexec]
  rfl

/-- C9 witness: the amended theorem evaluated on the armed session in
`wE`, whose directory holds exactly `entryE`. -/
theorem c9_witness :
    exec_list_command wE stArmed.options stArmed.data_listener =
      (["150 ok\r\n", "226 closing data connection\r\n"],
        ["-rw-r--r-- root root 1234 Jan 01 00:00 file.txt\r\n"],
        .ok 250 "ok" false .none) := by
  have h := (c9_list_writes_routing wE stArmed 7000 [entryE] rfl rfl rfl).1
  exact h.trans (by decide)

/-! Helper lemmas characterizing what each fallible handler does to the
options when it returns a failure outcome. -/

theorem exec_type_err_state (opts : ClientOptions) (args : List String)
    (o2 : ClientOptions) (c : Int) (m : String)
    (h : exec_type_command opts args = (o2, .err c m)) :
    o2.session = opts.session ∧ o2.working_directory = opts.working_directory ∧
    o2.local_bytes = opts.local_bytes ∧ o2.listen_mode = opts.listen_mode ∧
    (o2.data_representation = opts.data_representation ∨
      (c = 501 ∧ o2.data_representation = DataType.Local ∧
        ∃ s rest, args = "L" :: s :: rest ∧ parseI32 s = Option.none)) := by
  cases args with
  | nil =>
    simp only [exec_type_command, Prod.mk.injEq, CommandResult.err.injEq] at h
    obtain ⟨h1, h2, h3⟩ := h
    subst h1
    exact ⟨rfl, rfl, rfl, rfl, Or.inl rfl⟩
  | cons typee rest =>
    cases rest with
    | nil =>
      simp only [exec_type_command] at h
      split at h
      · exact absurd h (by simp)
      · split at h
        · exact absurd h (by simp)
        · split at h
          · exact absurd h (by simp)
          · split at h
            · simp only [Prod.mk.injEq, CommandResult.err.injEq] at h
              obtain ⟨h1, h2, h3⟩ := h
              subst h1
              exact ⟨rfl, rfl, rfl, rfl, Or.inl rfl⟩
            · simp only [Prod.mk.injEq, CommandResult.err.injEq] at h
              obtain ⟨h1, h2, h3⟩ := h
              subst h1
              exact ⟨rfl, rfl, rfl, rfl, Or.inl rfl⟩
    | cons s tail =>
      simp only [exec_type_command] at h
      split at h
      · exact absurd h (by simp)
      · split at h
        · exact absurd h (by simp)
        · split at h
          · exact absurd h (by simp)
          · split at h
            · rename_i hL
              split at h
              · exact absurd h (by simp)
              · rename_i hparse
                simp only [Prod.mk.injEq, CommandResult.err.injEq] at h
                obtain ⟨h1, h2, h3⟩ := h
                rw [← h1]
                refine ⟨rfl, rfl, rfl, rfl,
                  Or.inr ⟨h2.symm, rfl, s, tail, ?_, hparse⟩⟩
                rw [hL]
            · simp only [Prod.mk.injEq, CommandResult.err.injEq] at h
              obtain ⟨h1, h2, h3⟩ := h
              subst h1
              exact ⟨rfl, rfl, rfl, rfl, Or.inl rfl⟩

theorem exec_pasv_err_state (w : World) (opts o2 : ClientOptions) (c : Int)
    (m : String) (h : exec_pasv_command w opts = (o2, .err c m)) :
    o2 = { opts with listen_mode := ListenMode.Passive } := by
  have he : exec_pasv_command w opts =
      match findPortFrom w.portFree 7000 58535 with
      | some port =>
        ({ opts with listen_mode := ListenMode.Passive },
         .ok 227
           ("Entering passive mode (" ++ replaceDots w.hostname ++ "," ++
             toString (port / 256) ++ "," ++ toString (port - port / 256 * 256) ++ ")")
           false (.tcpListener port))
      | Option.none =>
        ({ opts with listen_mode := ListenMode.Passive },
         .err 425 "cannot open data connection") := rfl
  rw [he] at h
  split at h
  · exact absurd h (by simp)
  · simp only [Prod.mk.injEq, CommandResult.err.injEq] at h
    exact h.1.symm

theorem exec_cwd_err_state (w : World) (opts : ClientOptions) (args : List String)
    (o2 : ClientOptions) (c : Int) (m : String)
    (h : exec_cwd_command w opts args = (o2, .err c m)) : o2 = opts := by
  cases args with
  | nil =>
    simp only [exec_cwd_command, Prod.mk.injEq, CommandResult.err.injEq] at h
    exact h.1.symm
  | cons p rest =>
    simp only [exec_cwd_command] at h
    split at h
    · split at h
      · simp only [Prod.mk.injEq, CommandResult.err.injEq] at h
        exact h.1.symm
      · exact absurd h (by simp)
    · simp only [Prod.mk.injEq, CommandResult.err.injEq] at h
      exact h.1.symm

theorem exec_user_never_err (opts : ClientOptions) (args : List String)
    (o2 : ClientOptions) (c : Int) (m : String)
    (h : exec_user_command opts args = (o2, .err c m)) : False := by
  simp [exec_user_command] at h

/-! Claim C7. -/

/-- C7 counterexample: `TYPE L x` on a fresh session returns the failure
outcome 501 yet does not leave the session state as it was — the
transfer-representation mode has been switched from ASCII to Local before
the byte-size parse failed. -/
theorem c7_counterexample :
    processRequest wA initialClientState "TYPE L x" =
      .next ⟨⟨{ initialClientState.options with data_representation := DataType.Local },
        Option.none⟩, ["501 Syntax error in arguments\r\n"], []⟩ ∧
    initialClientState.options.data_representation = DataType.ASCII ∧
    (DataType.Local : DataType) ≠ DataType.ASCII := by decide

/-- C7 amended: every handler-failure outcome leaves the identity, the
working directory, the local byte size (and, for cwd/cdup/pasv failures,
everything but the listen mode) unchanged, and leaves the
transfer-representation mode unchanged in every case except TYPE with
code `L` followed by a non-integer byte size: that invocation returns 501
but sets the transfer-representation mode to Local before failing. (USER
never fails; LIST and the stateless handlers never touch the options.) -/
theorem c7_failure_atomicity_except_type_l :
    (∀ (opts : ClientOptions) (args : List String) (o2 : ClientOptions)
      (c : Int) (m : String),
      exec_type_command opts args = (o2, .err c m) →
        o2.session = opts.session ∧ o2.working_directory = opts.working_directory ∧
        o2.local_bytes = opts.local_bytes ∧ o2.listen_mode = opts.listen_mode ∧
        (o2.data_representation = opts.data_representation ∨
          (c = 501 ∧ o2.data_representation = DataType.Local ∧
            ∃ s rest, args = "L" :: s :: rest ∧ parseI32 s = Option.none))) ∧
    (∀ (opts : ClientOptions) (s : String) (rest : List String),
      parseI32 s = Option.none →
      exec_type_command opts ("L" :: s :: rest) =
        ({ opts with data_representation := DataType.Local },
         .err 501 "Syntax error in arguments")) ∧
    (∀ (w : World) (opts o2 : ClientOptions) (c : Int) (m : String),
      exec_pasv_command w opts = (o2, .err c m) →
        o2 = { opts with listen_mode := ListenMode.Passive }) ∧
    (∀ (w : World) (opts : ClientOptions) (args : List String)
      (o2 : ClientOptions) (c : Int) (m : String),
      exec_cwd_command w opts args = (o2, .err c m) → o2 = opts) ∧
    (∀ (w : World) (opts o2 : ClientOptions) (c : Int) (m : String),
      exec_cdup_command w opts = (o2, .err c m) → o2 = opts) ∧
    ∀ (opts : ClientOptions) (args : List String) (o2 : ClientOptions)
      (c : Int) (m : String),
      exec_user_command opts args = (o2, .err c m) → False := by
  refine ⟨exec_type_err_state, ?_, exec_pasv_err_state, exec_cwd_err_state, ?_,
    exec_user_never_err⟩
  · intro opts s rest hparse
    have he : exec_type_command opts ("L" :: s :: rest) =
        match parseI32 s with
        | some size =>
          ({ opts with data_representation := DataType.Local, local_bytes := size },
           .ok 200 "command OK" false .none)
        | Option.none =>
          ({ opts with data_representation := DataType.Local },
           .err 501 "Syntax error in arguments") := rfl
    rw [he, hparse]
  · intro w opts o2 c m h
    exact exec_cwd_err_state w opts [".."] o2 c m h

/-- C7 witness: the amended theorem's TYPE conjunct evaluated at the
concrete failing input `L x` on a fresh session. -/
theorem c7_witness :
    exec_type_command initialClientState.options ["L", "x"] =
      ({ initialClientState.options with data_representation := DataType.Local },
       .err 501 "Syntax error in arguments") :=
  c7_failure_atomicity_except_type_l.2.1 initialClientState.options "x" [] (by decide)

/-! Claim C8. -/

/-- C8 counterexample: when the peer closes the connection (the read
yields no bytes), the request loop does terminate, but `handle_connection`
returns `Err("EOF reached")` and the server wrapper logs it as an
application error — contradicting the claim that this termination is not
reported as an application error. -/
theorem c8_counterexample :
    (handleConnection wA [ReadEvent.bytes ""]).2.2 = LoopResult.errResult "EOF reached" ∧
    connectionErrorLog (handleConnection wA [ReadEvent.bytes ""]).2.2 =
      some "Error occured when handling connection: EOF reached." := by decide

/-- C8 amended: when the control read yields no bytes, the request loop
terminates immediately — no later read event is processed and no further
reply is written — but the termination IS reported as an application
error: the handler returns `Err("EOF reached")`, which the connection
wrapper in the server logs as an error. -/
theorem c8_eof_terminates_but_reported_error :
    (∀ (w : World) (st : FtpClientState) (rest : List ReadEvent),
      handleLoop w st (ReadEvent.bytes "" :: rest) =
        ([], [], LoopResult.errResult "EOF reached")) ∧
    connectionErrorLog (LoopResult.errResult "EOF reached") =
      some "Error occured when handling connection: EOF reached." :=
  ⟨fun _ _ _ => rfl, rfl⟩

/-! Claim C10. -/

/-- C10: a received control line that trims to the empty string (for
example a bare CRLF from a still-connected peer) makes the request loop
terminate immediately, on exactly the same path as a peer disconnect,
without dispatching any command or writing any reply for that line. -/
theorem c10_blank_line_ends_loop :
    ∀ (w : World) (st : FtpClientState) (raw : String) (rest : List ReadEvent),
      rustTrim raw = "" →
      handleLoop w st (ReadEvent.bytes raw :: rest) =
        ([], [], LoopResult.errResult "EOF reached") ∧
      handleLoop w st (ReadEvent.bytes raw :: rest) =
        handleLoop w st [ReadEvent.bytes ""] := by
  intro w st raw rest h
  have h1 : handleLoop w st (ReadEvent.bytes raw :: rest) =
      ([], [], LoopResult.errResult "EOF reached") := by
    simp only [handleLoop]
    rw [h]
    simp
  exact ⟨h1, h1.trans rfl⟩

/-- C10 witness: the theorem evaluated on a bare CRLF line on a fresh
session. -/
theorem c10_witness :
    handleLoop wA initialClientState [ReadEvent.bytes "\r\n"] =
      ([], [], LoopResult.errResult "EOF reached") :=
  (c10_blank_line_ends_loop wA initialClientState "\r\n" [] (by decide)).1

end FtpParadise
